import Mathlib

/-!
The `tf_listener` node of `ros2/transforms`.

A shallow embedding of `src/ros2/transforms/src/tf_listener.cpp`: the class
`TfListener` (its constructor and its subscription handler `poseCallback`)
together with the small part of the ROS 2 client library the node touches
(messages, the logger, the subscription registry of `rclcpp::Node` and the
`transform` operation of `tf2_ros::Buffer`).

The node never computes with the numbers it carries: it copies a message,
hands it to the transform buffer and passes three coordinates of the answer
to the logger. The buffer is a library outside this repository, so its
answer is an argument of the model.
-/

namespace TfListenerNode

/-! ## Messages -/

/-- A C++ `double`, carried as its 64 bit pattern. The node only copies
such values, it never does arithmetic on them. -/
structure Float64 where
  bits : Nat
  deriving DecidableEq, Repr

/-- The pattern of `0.0`. -/
def Float64.zero : Float64 := ⟨0⟩

/-- The pattern of `1.0`. -/
def Float64.one : Float64 := ⟨0x3FF0000000000000⟩

/-- Message `builtin_interfaces/msg/Time`. -/
structure Time where
  sec : Int
  nanosec : Nat
  deriving DecidableEq, Repr

/-- Message `std_msgs/msg/Header`. -/
structure Header where
  stamp : Time
  frame_id : String
  deriving DecidableEq, Repr

/-- Message `geometry_msgs/msg/Point`. -/
structure Point where
  x : Float64
  y : Float64
  z : Float64
  deriving DecidableEq, Repr

/-- Message `geometry_msgs/msg/Quaternion`. -/
structure Quaternion where
  x : Float64
  y : Float64
  z : Float64
  w : Float64
  deriving DecidableEq, Repr

/-- Message `geometry_msgs/msg/Pose`. -/
structure Pose where
  position : Point
  orientation : Quaternion
  deriving DecidableEq, Repr

/-- Message `geometry_msgs/msg/PoseStamped`. -/
structure PoseStamped where
  header : Header
  pose : Pose
  deriving DecidableEq, Repr

/-- The default-constructed `PoseStamped`: zero stamp, empty frame name,
zero position and the identity orientation. -/
def PoseStamped.init : PoseStamped :=
  { header := { stamp := { sec := 0, nanosec := 0 }, frame_id := "" }
    pose :=
      { position := { x := Float64.zero, y := Float64.zero, z := Float64.zero }
        orientation :=
          { x := Float64.zero, y := Float64.zero, z := Float64.zero, w := Float64.one } } }

/-! ## Durations -/

/-- A `tf2::Duration`, which is a `std::chrono::nanoseconds`: a count of
nanoseconds. -/
structure Duration where
  nanoseconds : Int
  deriving DecidableEq, Repr

/-- The conversion `tf2::Duration(std::chrono::seconds(n))`. -/
def Duration.ofSeconds (n : Int) : Duration := ⟨n * 1000000000⟩

/-! ## Exceptions -/

/-- The classes of `tf2/exceptions.h`: `tf2::TransformException` itself and
the classes derived from it. -/
inductive TransformExceptionClass where
  | TransformException
  | ConnectivityException
  | LookupException
  | ExtrapolationException
  | InvalidArgumentException
  | TimeoutException
  deriving DecidableEq, Repr

/-- A thrown C++ exception: one of the `tf2` transform exceptions, or an
exception of any class that does not derive from `tf2::TransformException`.
Both carry their `what()` text. -/
inductive Exception where
  | tf2 (cls : TransformExceptionClass) (what : String)
  | other (what : String)
  deriving DecidableEq, Repr

/-- Whether a handler `catch (const tf2::TransformException &)` matches the
exception. -/
def Exception.isTransformException : Exception → Bool
  | .tf2 _ _ => true
  | .other _ => false

/-! ## The transform buffer -/

/-- What the node sees of `tf2_ros::Buffer` at the time of one call:
`transform in out target_frame timeout`. The C++ operation takes the output
pose by reference; it either returns, and the output pose then holds the
value given here, or throws before it assigns the output pose. -/
structure Buffer where
  transform : PoseStamped → PoseStamped → String → Duration → Except Exception PoseStamped

/-! ## Observable events -/

/-- Severity of a log statement. -/
inductive Severity where
  | info
  | warn
  deriving DecidableEq, Repr

/-- What the node does to the outside: a call of the buffer's `transform`
with its arguments, or a log statement `RCLCPP_INFO` / `RCLCPP_WARN` with the
logger's name, the format text and the values passed for the format. -/
inductive Event where
  | transformCall (pose_in pose_out : PoseStamped) (target_frame : String) (timeout : Duration)
  | log (severity : Severity) (logger : String) (format : String) (args : List Float64)
  deriving DecidableEq, Repr

/-! ## The node -/

/-- The member functions of `TfListener` that are bound as handlers. -/
inductive Callback where
  | poseCallback
  deriving DecidableEq, Repr

/-- One entry made by `create_subscription`. -/
structure Subscription where
  topic : String
  depth : Nat
  callback : Callback
  deriving DecidableEq, Repr

/-- One entry a call of `create_wall_timer` would make: the period and the
handler. -/
structure Timer where
  period : Duration
  callback : Callback
  deriving DecidableEq, Repr

/-- The base class `rclcpp::Node` as far as the node uses it: its name (also
the name of its logger) and what has been registered on it. -/
structure Node where
  name : String
  subscriptions : List Subscription
  timers : List Timer
  deriving DecidableEq, Repr

/-- A freshly constructed `rclcpp::Node(name)`. -/
def Node.init (name : String) : Node :=
  { name := name, subscriptions := [], timers := [] }

/-- The registration `create_subscription<T>(topic, depth, callback)`: the
new entry is added to the node and returned. -/
def Node.create_subscription (self : Node) (topic : String) (depth : Nat) (callback : Callback) :
    Subscription × Node :=
  let sub : Subscription := { topic := topic, depth := depth, callback := callback }
  (sub, { self with subscriptions := self.subscriptions ++ [sub] })

/-- The registration `create_wall_timer(period, callback)`. -/
def Node.create_wall_timer (self : Node) (period : Duration) (callback : Callback) :
    Timer × Node :=
  let t : Timer := { period := period, callback := callback }
  (t, { self with timers := self.timers ++ [t] })

/-- The clock a buffer reads. -/
inductive ClockRef where
  | nodeClock
  deriving DecidableEq, Repr

/-- The pointer `tf_buffer_`: the buffer made on a clock. -/
structure BufferRef where
  clock : ClockRef
  deriving DecidableEq, Repr

/-- The pointer `tf_listener_`: the listener that feeds a buffer. -/
structure ListenerRef where
  buffer : BufferRef
  deriving DecidableEq, Repr

/-- The class `TfListener`: the base node and the data members, in the order
of their declaration. A null pointer is `none`. -/
structure TfListener where
  node : Node
  pose_sub_ : Option Subscription
  tf_listener_ : Option ListenerRef
  tf_buffer_ : Option BufferRef
  pose_in_ : PoseStamped
  pose_out_ : PoseStamped
  deriving DecidableEq, Repr

/-! ## Running member functions -/

/-- The state a member function runs on: the object and the events made so
far, oldest first. -/
structure World where
  self : TfListener
  events : List Event
  deriving DecidableEq, Repr

/-- A computation of the node: from a world to either a value or a thrown
exception, and the world at that point. A throw keeps the effects made before
it. -/
def Eff (α : Type) : Type := World → Except Exception α × World

/-- Sequencing: a throw in the first part skips the second. -/
def Eff.bind {α β : Type} (m : Eff α) (f : α → Eff β) : Eff β := fun w =>
  match m w with
  | (.ok a, w1) => f a w1
  | (.error e, w1) => (.error e, w1)

instance : Monad Eff where
  pure a := fun w => (.ok a, w)
  bind := Eff.bind

/-- The statement `throw e`. -/
def Eff.throw {α : Type} (e : Exception) : Eff α := fun w => (.error e, w)

/-- The block `try body catch (const C & ex) handler`, where `caught` tells
whether an exception is of class `C`: an exception of another class keeps
propagating. -/
def Eff.tryCatch {α : Type} (body : Eff α) (caught : Exception → Bool)
    (handler : Exception → Eff α) : Eff α := fun w =>
  match body w with
  | (.ok a, w1) => (.ok a, w1)
  | (.error e, w1) => if caught e then handler e w1 else (.error e, w1)

/-- Reads the object. -/
def Eff.getSelf : Eff TfListener := fun w => (.ok w.self, w)

/-- Updates the object. -/
def Eff.modifySelf (f : TfListener → TfListener) : Eff Unit := fun w =>
  (.ok (), { w with self := f w.self })

/-- Appends an event. -/
def Eff.emit (e : Event) : Eff Unit := fun w =>
  (.ok (), { w with events := w.events ++ [e] })

/-- The call `tf_buffer_->transform<PoseStamped>(in, out, target_frame, timeout)`
where `out` is the member `pose_out_`: the call is recorded, then either
`pose_out_` receives the answer or the buffer's exception is thrown. -/
def Eff.transform (buf : Buffer) (pose_in : PoseStamped) (target_frame : String)
    (timeout : Duration) : Eff Unit := do
  let self ← Eff.getSelf
  Eff.emit (Event.transformCall pose_in self.pose_out_ target_frame timeout)
  match buf.transform pose_in self.pose_out_ target_frame timeout with
  | .ok out => Eff.modifySelf fun s => { s with pose_out_ := out }
  | .error ex => Eff.throw ex

/-- The statement `RCLCPP_INFO(get_logger(), format, args...)`. -/
def Eff.RCLCPP_INFO (format : String) (args : List Float64) : Eff Unit := do
  let self ← Eff.getSelf
  Eff.emit (Event.log Severity.info self.node.name format args)

/-- The statement `RCLCPP_WARN(get_logger(), format, args...)`. -/
def Eff.RCLCPP_WARN (format : String) (args : List Float64) : Eff Unit := do
  let self ← Eff.getSelf
  Eff.emit (Event.log Severity.warn self.node.name format args)

/-- The handler `TfListener::poseCallback(msg)`. -/
def poseCallback (buf : Buffer) (msg : PoseStamped) : Eff Unit :=
  Eff.tryCatch
    (do
      Eff.modifySelf fun s => { s with pose_in_ := msg }
      let self ← Eff.getSelf
      Eff.transform buf self.pose_in_ "arm_end_link" (Duration.ofSeconds 1)
      let self ← Eff.getSelf
      Eff.RCLCPP_INFO "Object pose in 'arm_end_link' is:\n x,y,z = %.1f,%.1f,%.1f"
        [self.pose_out_.pose.position.x,
         self.pose_out_.pose.position.y,
         self.pose_out_.pose.position.z])
    Exception.isTransformException
    (fun _ex => do
      Eff.RCLCPP_WARN "Could not find object position in 'arm_end_link' frame." []
      return)

/-- The constructor `TfListener::TfListener(name)`. -/
def TfListener.new (name : String) : TfListener :=
  let self : TfListener :=
    { node := Node.init name
      pose_sub_ := none
      tf_listener_ := none
      tf_buffer_ := none
      pose_in_ := PoseStamped.init
      pose_out_ := PoseStamped.init }
  let self := { self with tf_buffer_ := some { clock := ClockRef.nodeClock } }
  let self := { self with tf_listener_ := self.tf_buffer_.map fun b => { buffer := b } }
  let (sub, node) := self.node.create_subscription "/detected_object" 10 Callback.poseCallback
  { self with node := node, pose_sub_ := some sub }

/-! ## Delivery of messages -/

/-- The handlers `rclcpp::spin` runs for a message that arrives on `topic`:
one per subscription registered on that topic, in the order of registration. -/
def Node.handlersFor (self : Node) (topic : String) : List Callback :=
  (self.subscriptions.filter fun s => s.topic == topic).map fun s => s.callback

/-- Runs a bound handler: `std::bind(&TfListener::poseCallback, this, _1)`. -/
def Callback.invoke : Callback → Buffer → PoseStamped → Eff Unit
  | .poseCallback, buf, msg => TfListenerNode.poseCallback buf msg

/-- Runs the handlers one after the other. -/
def runHandlers (buf : Buffer) (msg : PoseStamped) : List Callback → Eff Unit
  | [] => pure ()
  | cb :: rest => do
    cb.invoke buf msg
    runHandlers buf msg rest

/-- One message taken by `rclcpp::spin(node)` from `topic`. -/
def deliver (buf : Buffer) (topic : String) (msg : PoseStamped) : Eff Unit := do
  let self ← Eff.getSelf
  runHandlers buf msg (self.node.handlersFor topic)

/-! ## Observations -/

/-- Whether the event is a call of the buffer's `transform`. -/
def Event.isTransformCall : Event → Bool
  | .transformCall _ _ _ _ => true
  | .log _ _ _ _ => false

/-- Whether the event is a log statement. -/
def Event.isLog : Event → Bool
  | .transformCall _ _ _ _ => false
  | .log _ _ _ _ => true

/-- The events a computation adds when it runs on `w`. -/
def Eff.emitted {α : Type} (m : Eff α) (w : World) : List Event :=
  (m w).2.events.drop w.events.length

/-- The world right after construction: no event yet. -/
def World.init (name : String) : World :=
  { self := TfListener.new name, events := [] }

/-! ## Sample data -/

/-- A buffer that gives the same answer to every call. -/
def Buffer.const (r : Except Exception PoseStamped) : Buffer :=
  { transform := fun _ _ _ _ => r }

/-- A pose of the detected object in the frame `camera_link`, at
`(1.0, 2.0, 3.0)`. -/
def msgA : PoseStamped :=
  { header := { stamp := { sec := 12, nanosec := 500 }, frame_id := "camera_link" }
    pose :=
      { position := { x := ⟨0x3FF0000000000000⟩, y := ⟨0x4000000000000000⟩,
                      z := ⟨0x4008000000000000⟩ }
        orientation := PoseStamped.init.pose.orientation } }

/-- A later pose of the detected object in the frame `camera_link`, at
`(0.0, 0.0, 1.0)`. -/
def msgB : PoseStamped :=
  { header := { stamp := { sec := 13, nanosec := 0 }, frame_id := "camera_link" }
    pose :=
      { position := { x := Float64.zero, y := Float64.zero, z := Float64.one }
        orientation := PoseStamped.init.pose.orientation } }

/-- The pose `msgA` expressed in `arm_end_link`, at `(4.0, 5.0, 6.0)`. -/
def poseA : PoseStamped :=
  { header := { stamp := { sec := 12, nanosec := 500 }, frame_id := "arm_end_link" }
    pose :=
      { position := { x := ⟨0x4010000000000000⟩, y := ⟨0x4014000000000000⟩,
                      z := ⟨0x4018000000000000⟩ }
        orientation := PoseStamped.init.pose.orientation } }

/-- A buffer in which the lookup times out. -/
def timeoutBuffer : Buffer :=
  Buffer.const (.error (.tf2 .TimeoutException "Lookup timed out"))

/-- A buffer in which the two frames are not connected. -/
def unconnectedBuffer : Buffer :=
  Buffer.const (.error (.tf2 .ConnectivityException "Frames are not in the same tree"))

/-- A buffer whose call ends in an exception outside the `tf2` classes. -/
def brokenBuffer : Buffer :=
  Buffer.const (.error (.other "std::bad_alloc"))

/-! ## What one run of `poseCallback` does -/

/-- When the buffer answers with a pose, the handler stores the message and
the answer, and adds the call and one info statement. -/
theorem poseCallback_of_ok (buf : Buffer) (msg : PoseStamped) (w : World) (p : PoseStamped)
    (h : buf.transform msg w.self.pose_out_ "arm_end_link" (Duration.ofSeconds 1) = .ok p) :
    poseCallback buf msg w =
      (.ok (),
        { self := { w.self with pose_in_ := msg, pose_out_ := p }
          events := w.events ++
            [Event.transformCall msg w.self.pose_out_ "arm_end_link" (Duration.ofSeconds 1),
             Event.log Severity.info w.self.node.name
               "Object pose in 'arm_end_link' is:\n x,y,z = %.1f,%.1f,%.1f"
               [p.pose.position.x, p.pose.position.y, p.pose.position.z]] }) := by
  simp [poseCallback, Eff.tryCatch, Eff.transform, Eff.RCLCPP_INFO, Eff.getSelf, Eff.modifySelf,
    Eff.emit, bind, Eff.bind, h]

/-- When the buffer throws a transform exception, the handler stores the
message, adds the call and one warning, and returns. -/
theorem poseCallback_of_transformException (buf : Buffer) (msg : PoseStamped) (w : World)
    (ex : Exception)
    (h : buf.transform msg w.self.pose_out_ "arm_end_link" (Duration.ofSeconds 1) = .error ex)
    (hx : ex.isTransformException = true) :
    poseCallback buf msg w =
      (.ok (),
        { self := { w.self with pose_in_ := msg }
          events := w.events ++
            [Event.transformCall msg w.self.pose_out_ "arm_end_link" (Duration.ofSeconds 1),
             Event.log Severity.warn w.self.node.name
               "Could not find object position in 'arm_end_link' frame." []] }) := by
  simp [poseCallback, Eff.tryCatch, Eff.transform, Eff.RCLCPP_WARN, Eff.getSelf, Eff.modifySelf,
    Eff.emit, Eff.throw, bind, Eff.bind, pure, h, hx]

/-- When the buffer throws any other exception, the handler stores the
message, adds the call, and the exception leaves the handler. -/
theorem poseCallback_of_otherException (buf : Buffer) (msg : PoseStamped) (w : World)
    (ex : Exception)
    (h : buf.transform msg w.self.pose_out_ "arm_end_link" (Duration.ofSeconds 1) = .error ex)
    (hx : ex.isTransformException = false) :
    poseCallback buf msg w =
      (.error ex,
        { self := { w.self with pose_in_ := msg }
          events := w.events ++
            [Event.transformCall msg w.self.pose_out_ "arm_end_link"
              (Duration.ofSeconds 1)] }) := by
  simp [poseCallback, Eff.tryCatch, Eff.transform, Eff.getSelf, Eff.modifySelf,
    Eff.emit, Eff.throw, bind, Eff.bind, h, hx]

/-- The handler never touches the base node: name, subscriptions and timers
stay as they are. -/
theorem poseCallback_node (buf : Buffer) (msg : PoseStamped) (w : World) :
    (poseCallback buf msg w).2.self.node = w.self.node := by
  cases h : buf.transform msg w.self.pose_out_ "arm_end_link" (Duration.ofSeconds 1) with
  | ok p => rw [poseCallback_of_ok buf msg w p h]
  | error ex =>
    cases hx : ex.isTransformException with
    | true => rw [poseCallback_of_transformException buf msg w ex h hx]
    | false => rw [poseCallback_of_otherException buf msg w ex h hx]

/-- The value of one second as a `tf2::Duration`. -/
theorem Duration.ofSeconds_one : Duration.ofSeconds 1 = { nanoseconds := 1000000000 } := by
  simp [Duration.ofSeconds]

/-! ## The claims on `poseCallback` -/

/-- Claim C1: for every received message `msg`, in every state and whatever the
buffer answers, `poseCallback` calls the buffer's `transform` exactly once,
with input pose `msg`, target frame `"arm_end_link"` and a timeout of one
second (1000000000 nanoseconds). -/
theorem poseCallback_calls_transform_once (buf : Buffer) (msg : PoseStamped) (w : World) :
    (poseCallback buf msg w).2.events = w.events ++ (poseCallback buf msg).emitted w ∧
    ((poseCallback buf msg).emitted w).filter Event.isTransformCall =
      [Event.transformCall msg w.self.pose_out_ "arm_end_link" { nanoseconds := 1000000000 }] := by
  cases h : buf.transform msg w.self.pose_out_ "arm_end_link" (Duration.ofSeconds 1) with
  | ok p =>
    simp [Eff.emitted, poseCallback_of_ok buf msg w p h, Event.isTransformCall,
      Duration.ofSeconds_one]
  | error ex =>
    cases hx : ex.isTransformException with
    | true =>
      simp [Eff.emitted, poseCallback_of_transformException buf msg w ex h hx,
        Event.isTransformCall, Duration.ofSeconds_one]
    | false =>
      simp [Eff.emitted, poseCallback_of_otherException buf msg w ex h hx,
        Event.isTransformCall, Duration.ofSeconds_one]

/-- Claim C2: for every message and every prior state, if the buffer's
`transform` throws a `tf2::TransformException` then `poseCallback` returns
normally, and the log statements it makes are exactly one warning with the text
"Could not find object position in 'arm_end_link' frame." and no info. -/
theorem poseCallback_warns_on_transformException (buf : Buffer) (msg : PoseStamped) (w : World)
    (ex : Exception)
    (h : buf.transform msg w.self.pose_out_ "arm_end_link" (Duration.ofSeconds 1) = .error ex)
    (hx : ex.isTransformException = true) :
    (poseCallback buf msg w).1 = .ok () ∧
    ((poseCallback buf msg).emitted w).filter Event.isLog =
      [Event.log Severity.warn w.self.node.name
        "Could not find object position in 'arm_end_link' frame." []] := by
  simp [Eff.emitted, poseCallback_of_transformException buf msg w ex h hx, Event.isLog]

/-- Witness of C2 on a fresh node whose lookup times out. -/
theorem poseCallback_warns_on_transformException_witness :
    (poseCallback timeoutBuffer msgA (World.init "tf_listener")).1 = .ok () ∧
    ((poseCallback timeoutBuffer msgA).emitted (World.init "tf_listener")).filter Event.isLog =
      [Event.log Severity.warn "tf_listener"
        "Could not find object position in 'arm_end_link' frame." []] :=
  poseCallback_warns_on_transformException timeoutBuffer msgA (World.init "tf_listener")
    (.tf2 .TimeoutException "Lookup timed out") rfl rfl

/-- Claim C3: for every message for which the buffer's `transform` succeeds
with output pose `p`, the log statements `poseCallback` makes are exactly one
info and no warning, and the values passed to the info statement are
`p.pose.position.x`, `p.pose.position.y`, `p.pose.position.z` in that order:
the answer of the buffer, not the position of the received message. -/
theorem poseCallback_logs_transformed_position (buf : Buffer) (msg : PoseStamped) (w : World)
    (p : PoseStamped)
    (h : buf.transform msg w.self.pose_out_ "arm_end_link" (Duration.ofSeconds 1) = .ok p) :
    ((poseCallback buf msg).emitted w).filter Event.isLog =
      [Event.log Severity.info w.self.node.name
        "Object pose in 'arm_end_link' is:\n x,y,z = %.1f,%.1f,%.1f"
        [p.pose.position.x, p.pose.position.y, p.pose.position.z]] := by
  simp [Eff.emitted, poseCallback_of_ok buf msg w p h, Event.isLog]

/-- Witness of C3: the message is at `(1.0, 2.0, 3.0)`, the buffer answers with
`(4.0, 5.0, 6.0)`, and the info statement carries the latter. -/
theorem poseCallback_logs_transformed_position_witness :
    msgA.pose.position ≠ poseA.pose.position ∧
    ((poseCallback (Buffer.const (.ok poseA)) msgA).emitted (World.init "tf_listener")).filter
        Event.isLog =
      [Event.log Severity.info "tf_listener"
        "Object pose in 'arm_end_link' is:\n x,y,z = %.1f,%.1f,%.1f"
        [⟨0x4010000000000000⟩, ⟨0x4014000000000000⟩, ⟨0x4018000000000000⟩]] :=
  ⟨by decide,
    poseCallback_logs_transformed_position (Buffer.const (.ok poseA)) msgA
      (World.init "tf_listener") poseA rfl⟩

/-- Claim C6: for the same prior state and the same message, any two
`tf2::TransformException` values thrown by the buffer lead to the same outcome
of `poseCallback`: the same return, the same events (so the same logs) and the
same resulting object. The kind of failure cannot be told from outside. -/
theorem poseCallback_hides_failure_kind (b1 b2 : Buffer) (msg : PoseStamped) (w : World)
    (e1 e2 : Exception)
    (h1 : b1.transform msg w.self.pose_out_ "arm_end_link" (Duration.ofSeconds 1) = .error e1)
    (h2 : b2.transform msg w.self.pose_out_ "arm_end_link" (Duration.ofSeconds 1) = .error e2)
    (hx1 : e1.isTransformException = true) (hx2 : e2.isTransformException = true) :
    poseCallback b1 msg w = poseCallback b2 msg w := by
  rw [poseCallback_of_transformException b1 msg w e1 h1 hx1,
    poseCallback_of_transformException b2 msg w e2 h2 hx2]

/-- Witness of C6: a timeout and unconnected frames are different exceptions
and leave the same trace and state. -/
theorem poseCallback_hides_failure_kind_witness :
    Exception.tf2 .TimeoutException "Lookup timed out" ≠
      Exception.tf2 .ConnectivityException "Frames are not in the same tree" ∧
    poseCallback timeoutBuffer msgA (World.init "tf_listener") =
      poseCallback unconnectedBuffer msgA (World.init "tf_listener") :=
  ⟨by decide,
    poseCallback_hides_failure_kind timeoutBuffer unconnectedBuffer msgA
      (World.init "tf_listener") (.tf2 .TimeoutException "Lookup timed out")
      (.tf2 .ConnectivityException "Frames are not in the same tree") rfl rfl rfl rfl⟩

/-- Claim C9: for every message and every prior state, if the buffer's
`transform` throws a `tf2::TransformException` then after `poseCallback` the
member `pose_out_` is what it was before the call and `pose_in_` is the new
message. -/
theorem poseCallback_failure_keeps_pose_out (buf : Buffer) (msg : PoseStamped) (w : World)
    (ex : Exception)
    (h : buf.transform msg w.self.pose_out_ "arm_end_link" (Duration.ofSeconds 1) = .error ex)
    (hx : ex.isTransformException = true) :
    (poseCallback buf msg w).2.self.pose_out_ = w.self.pose_out_ ∧
    (poseCallback buf msg w).2.self.pose_in_ = msg := by
  simp [poseCallback_of_transformException buf msg w ex h hx]

/-- Witness of C9: on a fresh node a failed lookup leaves the default pose in
`pose_out_`; after `msgA` was transformed to `poseA`, a failed lookup for
`msgB` leaves `pose_in_ = msgB` next to `pose_out_ = poseA`, the answer for the
other message. -/
theorem poseCallback_failure_keeps_pose_out_witness :
    ((poseCallback timeoutBuffer msgA (World.init "tf_listener")).2.self.pose_out_ =
        PoseStamped.init ∧
      (poseCallback timeoutBuffer msgA (World.init "tf_listener")).2.self.pose_in_ = msgA) ∧
    (poseCallback (Buffer.const (.ok poseA)) msgA (World.init "tf_listener")).2.self.pose_in_ =
        msgA ∧
    msgA ≠ msgB ∧
    (poseCallback timeoutBuffer msgB
        (poseCallback (Buffer.const (.ok poseA)) msgA (World.init "tf_listener")).2).2.self.pose_out_
      = poseA ∧
    (poseCallback timeoutBuffer msgB
        (poseCallback (Buffer.const (.ok poseA)) msgA (World.init "tf_listener")).2).2.self.pose_in_
      = msgB :=
  ⟨poseCallback_failure_keeps_pose_out timeoutBuffer msgA (World.init "tf_listener")
      (.tf2 .TimeoutException "Lookup timed out") rfl rfl,
    rfl, by decide,
    poseCallback_failure_keeps_pose_out timeoutBuffer msgB
      (poseCallback (Buffer.const (.ok poseA)) msgA (World.init "tf_listener")).2
      (.tf2 .TimeoutException "Lookup timed out") rfl rfl⟩

/-- Claim C10: `poseCallback` catches only `tf2::TransformException` and the
classes derived from it: if the buffer's `transform` throws an exception of
another class, that exception leaves `poseCallback` and no log statement,
neither info nor warning, is made. -/
theorem poseCallback_propagates_other_exception (buf : Buffer) (msg : PoseStamped) (w : World)
    (ex : Exception)
    (h : buf.transform msg w.self.pose_out_ "arm_end_link" (Duration.ofSeconds 1) = .error ex)
    (hx : ex.isTransformException = false) :
    (poseCallback buf msg w).1 = .error ex ∧
    ((poseCallback buf msg).emitted w).filter Event.isLog = [] := by
  simp [Eff.emitted, poseCallback_of_otherException buf msg w ex h hx, Event.isLog]

/-- Witness of C10 on a fresh node whose buffer throws `std::bad_alloc`. -/
theorem poseCallback_propagates_other_exception_witness :
    (poseCallback brokenBuffer msgA (World.init "tf_listener")).1 =
      .error (.other "std::bad_alloc") ∧
    ((poseCallback brokenBuffer msgA).emitted (World.init "tf_listener")).filter Event.isLog =
      [] :=
  poseCallback_propagates_other_exception brokenBuffer msgA (World.init "tf_listener")
    (.other "std::bad_alloc") rfl rfl

/-! ## The claims on the constructor -/

/-- What the constructor leaves on the base node, whatever the name. -/
theorem TfListener.new_node (name : String) :
    (TfListener.new name).node =
      { name := name
        subscriptions := [{ topic := "/detected_object", depth := 10,
                            callback := Callback.poseCallback }]
        timers := [] } := by
  simp [TfListener.new, Node.init, Node.create_subscription]

/-- A single handler that returns nothing behaves as itself when it is run
through the list of handlers. -/
theorem runHandlers_single (buf : Buffer) (msg : PoseStamped) (cb : Callback) (w : World) :
    runHandlers buf msg [cb] w = cb.invoke buf msg w := by
  simp only [runHandlers, bind, Eff.bind, pure]
  rcases hr : cb.invoke buf msg w with ⟨r, w1⟩
  cases r <;> rfl

/-- Claim C4: constructing a `TfListener` registers exactly one subscription,
on topic `"/detected_object"` with queue depth 10 and `poseCallback` as its
handler. In every state that holds this registration, which `poseCallback`
never changes, a message delivered on that topic runs exactly one handler,
`poseCallback`, and the delivery is one run of `poseCallback` on that
message. -/
theorem constructor_registers_pose_subscription (name : String) (buf : Buffer)
    (msg : PoseStamped) (w : World)
    (hw : w.self.node.subscriptions = (TfListener.new name).node.subscriptions) :
    (TfListener.new name).node.subscriptions =
      [{ topic := "/detected_object", depth := 10, callback := Callback.poseCallback }] ∧
    (TfListener.new name).pose_sub_ =
      some { topic := "/detected_object", depth := 10, callback := Callback.poseCallback } ∧
    w.self.node.handlersFor "/detected_object" = [Callback.poseCallback] ∧
    deliver buf "/detected_object" msg w = poseCallback buf msg w ∧
    (poseCallback buf msg w).2.self.node.subscriptions =
      (TfListener.new name).node.subscriptions := by
  have hs : w.self.node.handlersFor "/detected_object" = [Callback.poseCallback] := by
    simp [Node.handlersFor, hw, TfListener.new_node]
  refine ⟨by rw [TfListener.new_node], ?_, hs, ?_, ?_⟩
  · simp [TfListener.new, Node.init, Node.create_subscription]
  · have hd : deliver buf "/detected_object" msg w =
        runHandlers buf msg (w.self.node.handlersFor "/detected_object") w := by
      simp [deliver, Eff.getSelf, bind, Eff.bind]
    rw [hd, hs, runHandlers_single]
    rfl
  · rw [poseCallback_node, hw]

/-- Witness of C4: the node made by `main`, first on its fresh state and then
on the state after a first message. -/
theorem constructor_registers_pose_subscription_witness :
    ((TfListener.new "tf_listener").node.subscriptions =
        [{ topic := "/detected_object", depth := 10, callback := Callback.poseCallback }] ∧
      (TfListener.new "tf_listener").pose_sub_ =
        some { topic := "/detected_object", depth := 10, callback := Callback.poseCallback } ∧
      (World.init "tf_listener").self.node.handlersFor "/detected_object" =
        [Callback.poseCallback] ∧
      deliver (Buffer.const (.ok poseA)) "/detected_object" msgA (World.init "tf_listener") =
        poseCallback (Buffer.const (.ok poseA)) msgA (World.init "tf_listener") ∧
      (poseCallback (Buffer.const (.ok poseA)) msgA (World.init "tf_listener")).2.self.node.subscriptions
        = (TfListener.new "tf_listener").node.subscriptions) ∧
    deliver timeoutBuffer "/detected_object" msgB
        (poseCallback (Buffer.const (.ok poseA)) msgA (World.init "tf_listener")).2 =
      poseCallback timeoutBuffer msgB
        (poseCallback (Buffer.const (.ok poseA)) msgA (World.init "tf_listener")).2 :=
  ⟨constructor_registers_pose_subscription "tf_listener" (Buffer.const (.ok poseA)) msgA
      (World.init "tf_listener") rfl,
    (constructor_registers_pose_subscription "tf_listener" timeoutBuffer msgB
      (poseCallback (Buffer.const (.ok poseA)) msgA (World.init "tf_listener")).2 rfl).2.2.2.1⟩

/-- Claim C5 against the code: the comment on the constructor promises a timer
that checks the transforms each second, but the node that `main` constructs
holds no timer at all, so none with a period of one second; the statement under
the comment registers the subscription instead. -/
theorem constructor_initializes_no_timer :
    (TfListener.new "tf_listener").node.timers = [] ∧
    (¬ ∃ t ∈ (TfListener.new "tf_listener").node.timers, t.period = Duration.ofSeconds 1) ∧
    (TfListener.new "tf_listener").node.subscriptions =
      [{ topic := "/detected_object", depth := 10, callback := Callback.poseCallback }] := by
  simp [TfListener.new_node]

end TfListenerNode
